import Mathlib

/-!
Verification of the DBN streaming-decoder specification against the
repository's sources.  The decoder code under scrutiny is the Julia code
generated by `src/refactor.py` (the `read_record`, `read_record_dispatch`
and `read_instrument_def_msg` string blocks written verbatim into
`src/decode.jl`), together with the Python drivers
`src/benchmark/compare_python.py` and `src/refactor.py` itself.
Parts of the decoder that live only in `src/decode.jl` (not under `src/`)
are modelled from the spec and carry a doc comment saying so.
-/

namespace DBN

/-- Error kinds of the decoder, as listed in spec section 7. -/
inductive DecodeError where
  | TruncatedInput
  | UnknownLayoutVersion
  | DecoderOverrun
  | DecoderUnderrun
deriving DecidableEq, Repr

/-- Modelled from the spec: the ByteCursor (spec section 4.1), a forward-only
position-tracked view over an in-memory byte source.  `src/` contains only its
uses (`position`, `skip`, `eof` in the generated Julia strings of
`src/refactor.py`).  Bytes are modelled as `Nat`. -/
structure ByteCursor where
  data : List Nat
  pos : Nat
deriving DecidableEq, Repr

namespace ByteCursor

/-- Remaining-bytes count (spec section 4.1). -/
def remaining (c : ByteCursor) : Nat := c.data.length - c.pos

/-- The byte `i` positions past the cursor (0 when out of range; all callers
stay in range). -/
def byteAt (c : ByteCursor) (i : Nat) : Nat := c.data.getD (c.pos + i) 0

/-- Advance the position by `n` without a bounds check (used internally by the
header parser after its explicit remaining-bytes check). -/
def advance (c : ByteCursor) (n : Nat) : ByteCursor := ⟨c.data, c.pos + n⟩

/-- Modelled from the spec: `skip(n)` fails with `TruncatedInput` beyond the
end of the source (spec section 4.1); otherwise it advances the position by
exactly `n` bytes. -/
def skip (c : ByteCursor) (n : Nat) : Except DecodeError ByteCursor :=
  if n ≤ c.remaining then .ok (c.advance n) else .error .TruncatedInput

/-- `eof(decoder.io)` of the generated Julia: no bytes remaining. -/
def eofAtEnd (c : ByteCursor) : Bool := c.remaining = 0

/-- Little-endian unsigned integer formed by `n` bytes starting `off` past the
cursor. -/
def readLE (c : ByteCursor) (off n : Nat) : Nat :=
  (List.range n).foldr (fun i acc => acc * 256 + c.byteAt (off + i)) 0

end ByteCursor

/-- The record-kind tags handled by the generated `read_record_dispatch`
(`src/refactor.py` lines 57-102).  The full `RType.T` enum lives in
`src/decode.jl` (not under `src/`); the `UNKNOWN` constructor stands for any
member outside the dispatch table, so that the dispatcher's `else` branch is
reachable exactly as in the source. -/
inductive RType where
  | MBO_MSG
  | MBP_0_MSG
  | MBP_1_MSG
  | MBP_10_MSG
  | OHLCV_1S_MSG
  | OHLCV_1M_MSG
  | OHLCV_1H_MSG
  | OHLCV_1D_MSG
  | STATUS_MSG
  | INSTRUMENT_DEF_MSG
  | IMBALANCE_MSG
  | STAT_MSG
  | ERROR_MSG
  | SYMBOL_MAPPING_MSG
  | SYSTEM_MSG
  | CMBP_1_MSG
  | CBBO_1S_MSG
  | CBBO_1M_MSG
  | TCBBO_MSG
  | BBO_1S_MSG
  | BBO_1M_MSG
  | UNKNOWN (tag : Nat)
deriving DecidableEq, Repr

/-- The fixed-size record header (spec section 3): `length` is the record size
in word units ("must be multiplied by a constant word size to get byte
length"), as `read_instrument_def_msg` does with `LENGTH_MULTIPLIER`
(`src/refactor.py` line 190). -/
structure RecordHeader where
  length : Nat
  rtype : RType
  publisher_id : Nat
  instrument_id : Nat
  ts_event : Nat
deriving DecidableEq, Repr

/-- Header byte size; the literal `16` of the generated Julia
(`hd.length - 16`, `record_size_bytes - 16` in `src/refactor.py`). -/
def HEADER_SIZE : Nat := 16

/-- Modelled from the spec: the constant word-size multiplier of the wire
contract (spec sections 3 and 6).  Its value is not under `src/` (only the
name `LENGTH_MULTIPLIER` appears, `src/refactor.py` line 190); the wire
format's length unit is the 32-bit word, giving 4 bytes per unit (the legacy
instrument-definition record's 384-byte body plus the 16-byte header is a
400-byte record, which a one-byte `length` field can only express in 4-byte
units). -/
def LENGTH_MULTIPLIER : Nat := 4

/-- Price/size fields of an OHLC bar body. -/
structure OHLCVBody where
  open_px : Nat
  high_px : Nat
  low_px : Nat
  close_px : Nat
  volume : Nat
deriving DecidableEq, Repr

/-- An OHLC bar record: the shared header plus the bar body. -/
structure OHLCVMsg where
  hd : RecordHeader
  body : OHLCVBody
deriving DecidableEq, Repr

/-- Modelled from the spec: the Record sum type (spec section 3, "a closed sum
type over all record kinds ... each variant carries the shared header plus
kind-specific fields").  The per-kind field lists live in `src/decode.jl`
(not under `src/`); only the variants the claims inspect are given fields,
the rest are represented by `generic`. -/
inductive Record where
  | ohlcv (m : OHLCVMsg)
  | generic (hd : RecordHeader)
deriving DecidableEq, Repr

/-- Result of one decode step: a raised error, or a value together with the
cursor it leaves behind. -/
abbrev DecodeM (α : Type) := Except DecodeError α

/-- Type of a per-kind decoder: a pure mapping `(cursor, header) -> Record`
(spec section 4.4), with explicit cursor passing for the mutated io. -/
abbrev KindDecoder := ByteCursor → RecordHeader → DecodeM (Record × ByteCursor)

/-- The per-kind decoders called by the generated `read_record_dispatch`.
Their bodies live in `src/decode.jl` (not under `src/`), so the dispatcher is
embedded parametrically in them; every theorem about the dispatcher therefore
holds for arbitrary decoder behaviour. -/
structure DecoderEnv where
  read_mbo_msg : KindDecoder
  read_trade_msg : KindDecoder
  read_mbp1_msg : KindDecoder
  read_mbp10_msg : KindDecoder
  read_ohlcv_msg : KindDecoder
  read_status_msg : KindDecoder
  read_instrument_def_v2 : KindDecoder
  read_instrument_def_v3 : KindDecoder
  read_imbalance_msg : KindDecoder
  read_stat_msg : KindDecoder
  read_error_msg : KindDecoder
  read_symbol_mapping_msg : KindDecoder
  read_system_msg : KindDecoder
  read_cmbp1_msg : KindDecoder
  read_cbbo1s_msg : KindDecoder
  read_cbbo1m_msg : KindDecoder
  read_tcbbo_msg : KindDecoder
  read_bbo1s_msg : KindDecoder
  read_bbo1m_msg : KindDecoder

/-- A record-producing decoder result, viewed as a dispatch result (the Julia
union `Union\x7bRecord, Nothing\x7d` is modelled as `Option Record`). -/
def liftRec (r : DecodeM (Record × ByteCursor)) : DecodeM (Option Record × ByteCursor) :=
  r.map (fun rc => (some rc.1, rc.2))

/-- `read_instrument_def_msg` as generated by `src/refactor.py` lines 187-199:
computes `record_size_bytes = hd.length * LENGTH_MULTIPLIER`,
`body_size = record_size_bytes - 16`, selects the v2 decoder when
`body_size == 384` and otherwise the v3 decoder.  `start_pos` is assigned and
never used, exactly as in the source. -/
def read_instrument_def_msg (env : DecoderEnv) (c : ByteCursor) (hd : RecordHeader) :
    DecodeM (Record × ByteCursor) :=
  let _start_pos := c.pos
  let record_size_bytes := hd.length * LENGTH_MULTIPLIER
  let body_size := record_size_bytes - 16
  if body_size = 384 then
    env.read_instrument_def_v2 c hd
  else
    env.read_instrument_def_v3 c hd

/-- `read_record_dispatch` as generated by `src/refactor.py` lines 57-102:
the if/elseif chain on `rtype`, with the four OHLC bar granularities sharing
`read_ohlcv_msg`, and the `else` branch performing
`skip(decoder.io, hd.length - 16)` and returning `nothing`. -/
def read_record_dispatch (env : DecoderEnv) (c : ByteCursor) (hd : RecordHeader)
    (rtype : RType) : DecodeM (Option Record × ByteCursor) :=
  if rtype = .MBO_MSG then liftRec (env.read_mbo_msg c hd)
  else if rtype = .MBP_0_MSG then liftRec (env.read_trade_msg c hd)
  else if rtype = .MBP_1_MSG then liftRec (env.read_mbp1_msg c hd)
  else if rtype = .MBP_10_MSG then liftRec (env.read_mbp10_msg c hd)
  else if rtype = .OHLCV_1S_MSG ∨ rtype = .OHLCV_1M_MSG ∨
          rtype = .OHLCV_1H_MSG ∨ rtype = .OHLCV_1D_MSG then
    liftRec (env.read_ohlcv_msg c hd)
  else if rtype = .STATUS_MSG then liftRec (env.read_status_msg c hd)
  else if rtype = .INSTRUMENT_DEF_MSG then liftRec (read_instrument_def_msg env c hd)
  else if rtype = .IMBALANCE_MSG then liftRec (env.read_imbalance_msg c hd)
  else if rtype = .STAT_MSG then liftRec (env.read_stat_msg c hd)
  else if rtype = .ERROR_MSG then liftRec (env.read_error_msg c hd)
  else if rtype = .SYMBOL_MAPPING_MSG then liftRec (env.read_symbol_mapping_msg c hd)
  else if rtype = .SYSTEM_MSG then liftRec (env.read_system_msg c hd)
  else if rtype = .CMBP_1_MSG then liftRec (env.read_cmbp1_msg c hd)
  else if rtype = .CBBO_1S_MSG then liftRec (env.read_cbbo1s_msg c hd)
  else if rtype = .CBBO_1M_MSG then liftRec (env.read_cbbo1m_msg c hd)
  else if rtype = .TCBBO_MSG then liftRec (env.read_tcbbo_msg c hd)
  else if rtype = .BBO_1S_MSG then liftRec (env.read_bbo1s_msg c hd)
  else if rtype = .BBO_1M_MSG then liftRec (env.read_bbo1m_msg c hd)
  else
    match c.skip (hd.length - 16) with
    | .ok c2 => .ok (none, c2)
    | .error e => .error e

/-- Result of the header parser: a full header for a known kind tag, or the
Julia tuple `(nothing, rtype_raw, record_length)` for an unknown raw tag. -/
inductive HeaderResult where
  | known (hd : RecordHeader)
  | unknownTuple (rtype_raw : Nat) (record_length : Nat)
deriving DecidableEq, Repr

/-- Modelled from the spec: the raw-tag table of `RType.T` lives in
`src/decode.jl` (not under `src/`); representative distinct tag values are
used, with every value outside the table mapping to `none`. -/
def rtypeOfRaw (t : Nat) : Option RType :=
  if t = 0x00 then some .MBP_0_MSG
  else if t = 0x01 then some .MBP_1_MSG
  else if t = 0x0A then some .MBP_10_MSG
  else if t = 0x12 then some .STATUS_MSG
  else if t = 0x13 then some .INSTRUMENT_DEF_MSG
  else if t = 0x14 then some .IMBALANCE_MSG
  else if t = 0x15 then some .ERROR_MSG
  else if t = 0x16 then some .SYMBOL_MAPPING_MSG
  else if t = 0x17 then some .SYSTEM_MSG
  else if t = 0x18 then some .STAT_MSG
  else if t = 0x20 then some .OHLCV_1S_MSG
  else if t = 0x21 then some .OHLCV_1M_MSG
  else if t = 0x22 then some .OHLCV_1H_MSG
  else if t = 0x23 then some .OHLCV_1D_MSG
  else if t = 0xA0 then some .MBO_MSG
  else if t = 0xB1 then some .CMBP_1_MSG
  else if t = 0xC0 then some .CBBO_1S_MSG
  else if t = 0xC1 then some .CBBO_1M_MSG
  else if t = 0xC2 then some .TCBBO_MSG
  else if t = 0xC3 then some .BBO_1S_MSG
  else if t = 0xC4 then some .BBO_1M_MSG
  else none

/-- Modelled from the spec: `read_record_header` is defined in `src/decode.jl`
(not under `src/`).  Per spec section 4.2 it fails with `TruncatedInput` when
fewer than `HEADER_SIZE` bytes remain; per its consumer in the generated
`read_record` (`src/refactor.py` lines 42-46) it returns, for an unknown raw
kind tag, the tuple of the raw tag and the record byte length, having consumed
the 2 leading bytes; otherwise it consumes the full 16-byte header whose
layout is `length u8, kind u8, publisher_id u16, instrument_id u32,
ts_event u64`, little-endian (spec section 3). -/
def read_record_header (c : ByteCursor) : DecodeM (HeaderResult × ByteCursor) :=
  if c.remaining < HEADER_SIZE then .error .TruncatedInput
  else
    let length_raw := c.byteAt 0
    let rtype_raw := c.byteAt 1
    match rtypeOfRaw rtype_raw with
    | none => .ok (.unknownTuple rtype_raw (length_raw * LENGTH_MULTIPLIER), c.advance 2)
    | some rt =>
      .ok (.known ⟨length_raw, rt, c.readLE 2 2, c.readLE 4 4, c.readLE 8 8⟩,
           c.advance HEADER_SIZE)

/-- `read_record` as generated by `src/refactor.py` lines 33-54: return
`nothing` at eof; for an unknown raw tag, `skip(decoder.io, record_length - 2)`
and return `nothing`; otherwise dispatch on `hd.rtype`. -/
def read_record (env : DecoderEnv) (c : ByteCursor) :
    DecodeM (Option Record × ByteCursor) :=
  if c.eofAtEnd then .ok (none, c)
  else
    match read_record_header c with
    | .error e => .error e
    | .ok (.unknownTuple _rtype_raw record_length, c1) =>
      match c1.skip (record_length - 2) with
      | .ok c2 => .ok (none, c2)
      | .error e => .error e
    | .ok (.known hd, c1) => read_record_dispatch env c1 hd hd.rtype

/-- Modelled from the spec: the body of the shared OHLC bar decoder lives in
`src/decode.jl` (not under `src/`).  Per spec section 4.4 it reads a
statically known sequence of fixed-width little-endian fields — the five
8-byte bar fields — and is a pure function of the cursor alone (the header is
only embedded in the result).  Fails with `TruncatedInput` when fewer than 40
body bytes remain. -/
def read_ohlcv_body (c : ByteCursor) : DecodeM (OHLCVBody × ByteCursor) :=
  if c.remaining < 40 then .error .TruncatedInput
  else
    .ok (⟨c.readLE 0 8, c.readLE 8 8, c.readLE 16 8, c.readLE 24 8, c.readLE 32 8⟩,
         c.advance 40)

/-- Modelled from the spec: the shared `read_ohlcv_msg` decoder, attaching the
selecting header to the decoded bar body (spec sections 4.4 and 3). -/
def read_ohlcv_msg_model (c : ByteCursor) (hd : RecordHeader) :
    DecodeM (Record × ByteCursor) :=
  (read_ohlcv_body c).map (fun bc => (Record.ohlcv ⟨hd, bc.1⟩, bc.2))

/-- Replace the embedded header of an OHLC record, leaving every body field
unchanged (used to state that two decodes differ only in the header). -/
def setOhlcvHd (hd : RecordHeader) (r : Record) : Record :=
  match r with
  | .ohlcv m => .ohlcv ⟨hd, m.body⟩
  | .generic h => .generic h

/-! ### The legacy (v2) instrument-definition layout

The v2 field reads live in `src/decode.jl.backup_before_refactor` (not under
`src/`); `src/` only shows the extraction that copies them verbatim in line
order (`src/refactor.py` lines 215-224) and the comments inserted above them
("CRITICAL: In v2, encode_order attributes are COMPLETELY IGNORED!  Read ALL
fields in exact Rust struct declaration order",
`src/add_instdef_helpers.py` lines 26-29).  The layout is therefore modelled
schematically: a v2 schema is a list of fields, each with a byte width and an
optional `encode_order` (logical-ordering) annotation, and the decoder reads
the fields strictly in declaration order at consecutive physical offsets,
never consulting `encode_order`. -/

/-- One field of the legacy instrument-definition schema. -/
structure FieldSchema where
  width : Nat
  encode_order : Option Nat
deriving DecidableEq, Repr

/-- Physical offset of field `i`: the sum of the widths of the fields declared
before it. -/
def physOffset (schema : List FieldSchema) (i : Nat) : Nat :=
  ((schema.take i).map (fun f => f.width)).sum

/-- The raw bytes of width `w` found at physical offset `off` of a body. -/
def fieldBytesAt (buf : List Nat) (off w : Nat) : List Nat :=
  (buf.drop off).take w

/-- Modelled from the spec: the v2 reader consumes the fields in declaration
order, the cursor advancing by each field's width (spec sections 3 and 4.5). -/
def readFieldsFrom (buf : List Nat) : List FieldSchema → Nat → List (List Nat)
  | [], _ => []
  | f :: fs, off => fieldBytesAt buf off f.width :: readFieldsFrom buf fs (off + f.width)

/-- Modelled from the spec: `read_instrument_def_v2` over a schematic layout —
all fields read in raw declaration order starting at the body's first byte. -/
def read_instrument_def_v2_fields (schema : List FieldSchema) (buf : List Nat) :
    List (List Nat) :=
  readFieldsFrom buf schema 0

/-! ### The RecordStream driver -/

/-- Modelled from the spec: the RecordStream states (spec section 4.6);
the driver loop lives in `src/decode.jl` (not under `src/`). -/
inductive StreamState where
  | Ready (c : ByteCursor)
  | Exhausted (c : ByteCursor)
  | Failed (c : ByteCursor) (e : DecodeError)
deriving DecidableEq, Repr

/-- What one `next()` call surfaces to the caller. -/
inductive StreamOutcome where
  | record (r : Record)
  | nothingOut
  | eos
  | failed (e : DecodeError)
deriving DecidableEq, Repr

/-- The cursor owned by a stream state. -/
def StreamState.cursor : StreamState → ByteCursor
  | .Ready c => c
  | .Exhausted c => c
  | .Failed c _ => c

/-- Modelled from the spec: `next()` of the RecordStream (spec section 4.6).
From `Ready`, zero remaining bytes terminate cleanly; otherwise one record is
decoded by the embedded `read_record`.  Per spec section 8, `Exhausted` and
`Failed` are terminal: the same outcome is returned and the state (hence the
cursor) is untouched, with no further reads. -/
def streamNext (env : DecoderEnv) : StreamState → StreamOutcome × StreamState
  | .Ready c =>
    if c.remaining = 0 then (.eos, .Exhausted c)
    else
      match read_record env c with
      | .ok (some r, c2) => (.record r, .Ready c2)
      | .ok (none, c2) => (.nothingOut, .Ready c2)
      | .error e => (.failed e, .Failed c e)
  | .Exhausted c => (.eos, .Exhausted c)
  | .Failed c e => (.failed e, .Failed c e)

/-- The state reached after one `next()` call. -/
def streamStep (env : DecoderEnv) (s : StreamState) : StreamState :=
  (streamNext env s).2

/-! ### `src/benchmark/compare_python.py` — `benchmark_python_read`

The function opens the file once as a warmup read and counts its records,
then performs `runs` timed reads, asserting after each that its count equals
the warmup count, and finally returns a result whose `records` entry is the
warmup count.  Timing quantities (`mean_time`, `std_time`, `throughput`) are
floating point and are outside the embedding; the record-count data flow is
embedded in full.  Each read of the file may in principle yield a different
count, so the reads are modelled by a function `counts` from the read index
(0 = warmup, 1..runs = timed) to the record count that read observes. -/

/-- The `AssertionError` raised by `assert count == record_count` with the
two counts of its message. -/
inductive BenchError where
  | assertionError (count record_count : Nat)
deriving DecidableEq, Repr

/-- The non-float part of the dictionary returned by
`benchmark_python_read`. -/
structure BenchResult where
  records : Nat
deriving DecidableEq, Repr

/-- The timed loop of `benchmark_python_read` (`compare_python.py` lines
52-63): read `fuel` more times starting at read index `i`, stopping with
`AssertionError` at the first count differing from `record_count`. -/
def benchTimedRuns (counts : Nat → Nat) (record_count : Nat) :
    Nat → Nat → Except BenchError Unit
  | _, 0 => .ok ()
  | i, fuel + 1 =>
    let count := counts i
    if count = record_count then benchTimedRuns counts record_count (i + 1) fuel
    else .error (.assertionError count record_count)

/-- `benchmark_python_read` (`compare_python.py` lines 34-75): warmup read,
timed loop, result. -/
def benchmark_python_read (counts : Nat → Nat) (runs : Nat) :
    Except BenchError BenchResult :=
  let record_count := counts 0
  match benchTimedRuns counts record_count 1 runs with
  | .error e => .error e
  | .ok _ => .ok ⟨record_count⟩

/-! ### `src/refactor.py` — control flow of `main`

`main` reads `src/decode.jl` into `lines`, asserts that line 382 contains the
`read_record` signature and that line 998 strips to `end`, extracts the
handlers (a failed extraction only prints a warning and contributes no code),
assembles `final_lines` and writes them back.  The embedding maps the input
`lines` to `some final_lines` when the write happens and `none` when the run
aborts (a failed assertion, or an IndexError on a file too short for the
asserted indices) — in the `none` case `src/decode.jl` is never opened for
writing. -/

/-- `needle` is a leading substring of `hay` (character lists). -/
def charsStartWith : List Char → List Char → Bool
  | [], _ => true
  | _ :: _, [] => false
  | a :: as, b :: bs => a = b && charsStartWith as bs

/-- `needle` occurs somewhere in `hay` (character lists). -/
def charsContain (needle : List Char) : List Char → Bool
  | [] => needle.isEmpty
  | b :: bs => charsStartWith needle (b :: bs) || charsContain needle bs

/-- Python's `needle in line` on strings. -/
def strContains (line needle : String) : Bool :=
  charsContain needle.data line.data

/-- Whitespace for Python's `str.strip()`. -/
def isPySpace (c : Char) : Bool :=
  c = ' ' || c = '\t' || c = '\n' || c = '\x0d' || c = '\x0b' || c = '\x0c'

/-- Python's `line.strip()`: drop leading and trailing whitespace. -/
def pyStrip (s : String) : String :=
  String.mk (((s.data.dropWhile isPySpace).reverse.dropWhile isPySpace).reverse)

/-- Python truthiness of an `Optional[int]` (`None` and `0` are falsy), as
used by `if inst_start:` and the v2/v3 guards. -/
def truthy : Option Nat → Bool
  | some (_ + 1) => true
  | _ => false

/-- The de-indentation applied to handler lines (`refactor.py` lines 138-139):
a line starting with 8 spaces loses one 4-space level. -/
def dedent8 (line : String) : String :=
  if charsStartWith "        ".data line.data then
    "    " ++ String.mk (line.data.drop 8)
  else line

/-- The de-indentation applied to v2/v3 body lines (`refactor.py` lines
221-222 and 244-246): a line starting with 12 spaces is replaced by 4 spaces
plus its tail. -/
def dedent12 (line : String) : String :=
  if charsStartWith "            ".data line.data then
    "    " ++ String.mk (line.data.drop 12)
  else line

/-- Python list indexing `lines[i]`: `none` models the `IndexError` raised
when `i` is out of range. -/
def pyIndex : List String → Nat → Option String
  | [], _ => none
  | x :: _, 0 => some x
  | _ :: xs, n + 1 => pyIndex xs n

/-- `for i in range(start, stop): if p(i): return i` — the first index in
`[start, stop)` satisfying `p` (models Python's linear searches with
`enumerate`/`range` and `break`). -/
def pyFindIdx (p : Nat → Bool) (start stop : Nat) : Option Nat :=
  (List.range' start (stop - start)).find? p

/-- The end-of-handler search (`refactor.py` lines 122-124): a line containing
`return ` and either `Msg(` or `nothing`. -/
def isHandlerReturn (line : String) : Bool :=
  strContains line "return " && (strContains line "Msg(" || strContains line "nothing")

/-- `extract_handler` (`refactor.py` lines 108-143): find the marker line,
find the handler's return line, and emit the handler as a function; when
either search fails, print a warning and emit nothing — without aborting. -/
def extract_handler (old_function : List String) (start_marker func_name : String) :
    List String :=
  match pyFindIdx (fun i => strContains (old_function.getD i "") start_marker)
      0 old_function.length with
  | none => []
  | some start_idx =>
    match pyFindIdx (fun i => isHandlerReturn (old_function.getD i ""))
        (start_idx + 1) old_function.length with
    | none => []
    | some end_idx =>
      ("@inline function " ++ func_name ++ "(decoder::DBNDecoder, hd::RecordHeader)\n")
        :: ((old_function.drop (start_idx + 1)).take (end_idx - start_idx)).map dedent8
        ++ ["end\n\n"]

/-- The `read_record` block written verbatim (`refactor.py` lines 33-54). -/
def readRecordBlock : List String := [
  "function read_record(decoder::DBNDecoder)\n",
  "    if eof(decoder.io)\n",
  "        return nothing\n",
  "    end\n",
  "    \n",
  "    hd_result = read_record_header(decoder.io)\n",
  "    \n",
  "    # Handle unknown record types\n",
  "    if hd_result isa Tuple\n",
  "        _, rtype_raw, record_length = hd_result\n",
  "        skip(decoder.io, record_length - 2)\n",
  "        return nothing\n",
  "    end\n",
  "    \n",
  "    hd = hd_result\n",
  "    \n",
  "    # Type-stable dispatch - function barrier eliminates type instability\n",
  "    return read_record_dispatch(decoder, hd, hd.rtype)\n",
  "end\n",
  "\n"]

/-- The `read_record_dispatch` block written verbatim (`refactor.py` lines
57-102). -/
def dispatchBlock : List String := [
  "# Dispatch to type-stable helpers - each helper has concrete types\n",
  "@inline function read_record_dispatch(decoder::DBNDecoder, hd::RecordHeader, rtype::RType.T)\n",
  "    if rtype == RType.MBO_MSG\n",
  "        return read_mbo_msg(decoder, hd)\n",
  "    elseif rtype == RType.MBP_0_MSG\n",
  "        return read_trade_msg(decoder, hd)\n",
  "    elseif rtype == RType.MBP_1_MSG\n",
  "        return read_mbp1_msg(decoder, hd)\n",
  "    elseif rtype == RType.MBP_10_MSG\n",
  "        return read_mbp10_msg(decoder, hd)\n",
  "    elseif rtype in (RType.OHLCV_1S_MSG, RType.OHLCV_1M_MSG, RType.OHLCV_1H_MSG, RType.OHLCV_1D_MSG)\n",
  "        return read_ohlcv_msg(decoder, hd)\n",
  "    elseif rtype == RType.STATUS_MSG\n",
  "        return read_status_msg(decoder, hd)\n",
  "    elseif rtype == RType.INSTRUMENT_DEF_MSG\n",
  "        return read_instrument_def_msg(decoder, hd)\n",
  "    elseif rtype == RType.IMBALANCE_MSG\n",
  "        return read_imbalance_msg(decoder, hd)\n",
  "    elseif rtype == RType.STAT_MSG\n",
  "        return read_stat_msg(decoder, hd)\n",
  "    elseif rtype == RType.ERROR_MSG\n",
  "        return read_error_msg(decoder, hd)\n",
  "    elseif rtype == RType.SYMBOL_MAPPING_MSG\n",
  "        return read_symbol_mapping_msg(decoder, hd)\n",
  "    elseif rtype == RType.SYSTEM_MSG\n",
  "        return read_system_msg(decoder, hd)\n",
  "    elseif rtype == RType.CMBP_1_MSG\n",
  "        return read_cmbp1_msg(decoder, hd)\n",
  "    elseif rtype == RType.CBBO_1S_MSG\n",
  "        return read_cbbo1s_msg(decoder, hd)\n",
  "    elseif rtype == RType.CBBO_1M_MSG\n",
  "        return read_cbbo1m_msg(decoder, hd)\n",
  "    elseif rtype == RType.TCBBO_MSG\n",
  "        return read_tcbbo_msg(decoder, hd)\n",
  "    elseif rtype == RType.BBO_1S_MSG\n",
  "        return read_bbo1s_msg(decoder, hd)\n",
  "    elseif rtype == RType.BBO_1M_MSG\n",
  "        return read_bbo1m_msg(decoder, hd)\n",
  "    else\n",
  "        skip(decoder.io, hd.length - 16)\n",
  "        return nothing\n",
  "    end\n",
  "end\n",
  "\n"]

/-- The marker/name pairs of the simple handlers (`refactor.py` lines
149-167). -/
def handlersTable : List (String × String) := [
  ("if hd.rtype == RType.MBO_MSG", "read_mbo_msg"),
  ("elseif hd.rtype == RType.MBP_0_MSG", "read_trade_msg"),
  ("elseif hd.rtype == RType.MBP_1_MSG", "read_mbp1_msg"),
  ("elseif hd.rtype == RType.MBP_10_MSG", "read_mbp10_msg"),
  ("elseif hd.rtype in [RType.OHLCV", "read_ohlcv_msg"),
  ("elseif hd.rtype == RType.STATUS_MSG", "read_status_msg"),
  ("elseif hd.rtype == RType.IMBALANCE_MSG", "read_imbalance_msg"),
  ("elseif hd.rtype == RType.STAT_MSG", "read_stat_msg"),
  ("elseif hd.rtype == RType.ERROR_MSG", "read_error_msg"),
  ("elseif hd.rtype == RType.SYMBOL_MAPPING_MSG", "read_symbol_mapping_msg"),
  ("elseif hd.rtype == RType.SYSTEM_MSG", "read_system_msg"),
  ("elseif hd.rtype == RType.CMBP_1_MSG", "read_cmbp1_msg"),
  ("elseif hd.rtype == RType.CBBO_1S_MSG", "read_cbbo1s_msg"),
  ("elseif hd.rtype == RType.CBBO_1M_MSG", "read_cbbo1m_msg"),
  ("elseif hd.rtype == RType.TCBBO_MSG", "read_tcbbo_msg"),
  ("elseif hd.rtype == RType.BBO_1S_MSG", "read_bbo1s_msg"),
  ("elseif hd.rtype == RType.BBO_1M_MSG", "read_bbo1m_msg")]

/-- The `read_instrument_def_msg` dispatcher block written verbatim
(`refactor.py` lines 187-199). -/
def instDefDispatcherBlock : List String := [
  "@inline function read_instrument_def_msg(decoder::DBNDecoder, hd::RecordHeader)\n",
  "    start_pos = position(decoder.io)\n",
  "    record_size_bytes = hd.length * LENGTH_MULTIPLIER\n",
  "    body_size = record_size_bytes - 16\n",
  "    if body_size == 384\n",
  "        return read_instrument_def_v2(decoder, hd)\n",
  "    else\n",
  "        return read_instrument_def_v3(decoder, hd)\n",
  "    end\n",
  "end\n",
  "\n"]

/-- The instrument-definition part of `main` (`refactor.py` lines 178-248):
locate the InstrumentDef branch, emit the dispatcher block and, when the
v2/v3 block boundaries are found, the extracted v2 and v3 helpers; every
failed search merely omits code, it never aborts. -/
def instDefSection (old_function : List String) : List String :=
  let n := old_function.length
  let inst_start := pyFindIdx
    (fun i => strContains (old_function.getD i "") "elseif hd.rtype == RType.INSTRUMENT_DEF_MSG") 0 n
  if truthy inst_start then
    let v2_start := pyFindIdx
      (fun i => strContains (old_function.getD i "") "if body_size == 384") (inst_start.getD 0) n
    let v2_end :=
      if truthy v2_start then
        pyFindIdx (fun i =>
          charsStartWith "else".data (pyStrip (old_function.getD i "")).data &&
          strContains (old_function.getD (min (i + 2) (n - 1)) "") "DBN V3")
          (v2_start.getD 0 + 1) n
      else none
    let v2_block :=
      if truthy v2_start && truthy v2_end then
        ("@inline function read_instrument_def_v2(decoder::DBNDecoder, hd::RecordHeader)\n")
          :: ((old_function.drop (v2_start.getD 0 + 11)).take
                ((v2_end.getD 0 - 1) - (v2_start.getD 0 + 11))).map dedent12
          ++ ["end\n\n"]
      else []
    let v3_start := v2_end
    let v3_end :=
      if truthy v3_start then
        match pyFindIdx
            (fun i => strContains (old_function.getD i "") "return InstrumentDefMsg(")
            (v3_start.getD 0) n with
        | none => none
        | some i => pyFindIdx (fun j => pyStrip (old_function.getD j "") = ")") i n
      else none
    let v3_block :=
      if truthy v3_start && truthy v3_end then
        ("@inline function read_instrument_def_v3(decoder::DBNDecoder, hd::RecordHeader)\n")
          :: ((old_function.drop (v3_start.getD 0 + 7)).take
                ((v3_end.getD 0 + 1) - (v3_start.getD 0 + 7))).map dedent12
          ++ ["end\n\n"]
      else []
    instDefDispatcherBlock ++ v2_block ++ v3_block
  else []

/-- The whole `new_code` list assembled by `main` (`refactor.py` lines
29-248): the two verbatim blocks, the extracted simple handlers, and the
instrument-definition section, with `old_function = lines[381:998]`. -/
def newCode (lines : List String) : List String :=
  let old_function := (lines.drop 381).take 617
  readRecordBlock ++ dispatchBlock
    ++ (handlersTable.map (fun mk => extract_handler old_function mk.1 mk.2)).flatten
    ++ instDefSection old_function

/-- `final_lines` (`refactor.py` lines 254-258). -/
def assembleOutput (lines : List String) : List String :=
  lines.take 381 ++ newCode lines ++ lines.drop 998

/-- The control flow of `main` (`refactor.py` lines 7-266) from the file
contents read at line 12 to the optional write at line 265: `none` means the
run aborted (IndexError on a too-short file or a failed assertion at lines
22-23) before `src/decode.jl` was opened for writing; `some out` means `out`
was written. -/
def refactorMain (lines : List String) : Option (List String) :=
  match pyIndex lines 381 with
  | none => none
  | some l381 =>
    if strContains l381 "function read_record(decoder::DBNDecoder)" then
      match pyIndex lines 997 with
      | none => none
      | some l997 =>
        if pyStrip l997 = "end" then some (assembleOutput lines) else none
    else none

/-! ### Iteration of the stream driver and concrete instances used by the
theorems below -/

/-- `n` successive `next()` calls, keeping only the final state. -/
def streamIter (env : DecoderEnv) : Nat → StreamState → StreamState
  | 0, s => s
  | n + 1, s => streamIter env n (streamStep env s)

/-- A per-kind decoder that always fails (the dispatcher theorems quantify
over all decoder behaviour; concrete instances only need some inhabitant). -/
def haltDecoder : KindDecoder := fun _ _ => .error .TruncatedInput

/-- An environment whose instrument-definition layout decoders are `v2` and
`v3` and whose other decoders halt. -/
def envWithInstDef (v2 v3 : KindDecoder) : DecoderEnv :=
  ⟨haltDecoder, haltDecoder, haltDecoder, haltDecoder, haltDecoder, haltDecoder,
   v2, v3, haltDecoder, haltDecoder, haltDecoder, haltDecoder, haltDecoder,
   haltDecoder, haltDecoder, haltDecoder, haltDecoder, haltDecoder, haltDecoder⟩

/-- An environment whose OHLC bar decoder is `f` and whose other decoders
halt. -/
def envWithOhlcv (f : KindDecoder) : DecoderEnv :=
  ⟨haltDecoder, haltDecoder, haltDecoder, haltDecoder, f, haltDecoder,
   haltDecoder, haltDecoder, haltDecoder, haltDecoder, haltDecoder, haltDecoder,
   haltDecoder, haltDecoder, haltDecoder, haltDecoder, haltDecoder, haltDecoder,
   haltDecoder⟩

/-- An environment whose market-by-order decoder is `f` and whose other
decoders halt. -/
def envWithMbo (f : KindDecoder) : DecoderEnv :=
  ⟨f, haltDecoder, haltDecoder, haltDecoder, haltDecoder, haltDecoder,
   haltDecoder, haltDecoder, haltDecoder, haltDecoder, haltDecoder, haltDecoder,
   haltDecoder, haltDecoder, haltDecoder, haltDecoder, haltDecoder, haltDecoder,
   haltDecoder⟩

/-- The all-halting environment. -/
def haltEnv : DecoderEnv := envWithInstDef haltDecoder haltDecoder

/-- A v2 layout decoder returning a distinguishable marker record and
consuming nothing. -/
def v2Marker : KindDecoder := fun c _ => .ok (.generic ⟨2, .UNKNOWN 2, 0, 0, 0⟩, c)

/-- A v3 layout decoder returning a distinguishable marker record and
consuming nothing. -/
def v3Marker : KindDecoder := fun c _ => .ok (.generic ⟨3, .UNKNOWN 3, 0, 0, 0⟩, c)

/-- Environment with the two marker layout decoders. -/
def markEnv : DecoderEnv := envWithInstDef v2Marker v3Marker

/-- Cursor at the start of a 104-byte instrument-definition body (120-byte
record, header already consumed). -/
def c1Cursor : ByteCursor := ⟨List.replicate 120 0, 16⟩

/-- Instrument-definition header with `length = 30` words: a 120-byte record,
body 104 bytes — matching neither the legacy 384-byte nor the v3 504-byte
layout. -/
def c1Header : RecordHeader := ⟨30, .INSTRUMENT_DEF_MSG, 1, 2, 3⟩

/-- Cursor at the start of the body of an 80-byte record (position 16, 64
body bytes remaining). -/
def c2Cursor : ByteCursor := ⟨List.replicate 80 0, 16⟩

/-- A well-formed header of an 80-byte record (`length = 20` words) whose
kind tag is outside the dispatch table. -/
def c2Header : RecordHeader := ⟨20, .UNKNOWN 200, 1, 2, 3⟩

/-- An exhausted byte source: zero bytes remain. -/
def cEmpty : ByteCursor := ⟨[], 0⟩

/-- A byte source holding exactly one record with unknown raw kind tag
`0x99 = 153` and `length_raw = 10` (a 40-byte record). -/
def cUnkRec : ByteCursor := ⟨10 :: 153 :: List.replicate 38 0, 0⟩

/-- A byte source holding one record with unknown raw kind tag `153` and
`length_raw = 12` (a 48-byte record), used by the C3 witness. -/
def c3wCursor : ByteCursor := ⟨12 :: 153 :: List.replicate 46 0, 0⟩

/-- A market-by-order decoder that produces a record while consuming zero of
the declared body bytes. -/
def mboNoConsume : KindDecoder := fun c hd => .ok (.generic hd, c)

/-- Environment for the C4 counterexample. -/
def c4Env : DecoderEnv := envWithMbo mboNoConsume

/-- Cursor at the start of the body of an 80-byte record. -/
def c4Cursor : ByteCursor := ⟨List.replicate 80 0, 16⟩

/-- A well-formed market-by-order header of an 80-byte record
(`length = 20` words, body 64 bytes). -/
def c4Header : RecordHeader := ⟨20, .MBO_MSG, 1, 2, 3⟩

/-- A byte source with `HEADER_SIZE - 1 = 15` trailing bytes. -/
def c5Cursor : ByteCursor := ⟨List.replicate 15 7, 0⟩

/-- A two-field v2 schema carrying logical-ordering metadata that contradicts
the physical order. -/
def c6Schema : List FieldSchema := [⟨2, some 1⟩, ⟨3, some 0⟩]

/-- The same fields with the logical-ordering metadata removed. -/
def c6SchemaB : List FieldSchema := [⟨2, none⟩, ⟨3, none⟩]

/-- A concrete five-byte body. -/
def c6Buf : List Nat := [10, 11, 12, 13, 14]

/-- Environment whose OHLC decoder is the modelled shared bar decoder. -/
def c7Env : DecoderEnv := envWithOhlcv read_ohlcv_msg_model

/-- Cursor with 40 body bytes available for a bar record. -/
def c7Cursor : ByteCursor := ⟨List.replicate 56 1, 16⟩

/-- A one-minute bar header. -/
def c7Header : RecordHeader := ⟨7, .OHLCV_1M_MSG, 4, 5, 6⟩

/-- A one-day bar header over the same body. -/
def c7Header2 : RecordHeader := ⟨7, .OHLCV_1D_MSG, 4, 5, 6⟩

/-- A 998-line input file for `refactor.py` that passes both positional
assertions (line 382 carries the `read_record` signature, line 998 strips to
`end`) while containing none of the handler markers, so that every handler
extraction fails. -/
def c10File : List String :=
  List.replicate 381 "x" ++ ["function read_record(decoder::DBNDecoder)\n"]
    ++ List.replicate 615 "y" ++ ["end\n"]

/-! ## Theorems settling the claims -/

/-- C1 (counterexample): the claim says an instrument-definition body length
matching no known exact layout size must yield `UnknownLayoutVersion` and must
never fall back to a layout decoder.  At the concrete 104-byte body (a
120-byte record, `length = 30` words) — neither the legacy 384-byte nor the
v3 504-byte layout — the generated resolver returns the v3 decoder's result
and no `UnknownLayoutVersion` error. -/
theorem c1_counterexample :
    read_instrument_def_msg markEnv c1Cursor c1Header = v3Marker c1Cursor c1Header ∧
    read_instrument_def_msg markEnv c1Cursor c1Header
      ≠ Except.error DecodeError.UnknownLayoutVersion ∧
    c1Header.length * LENGTH_MULTIPLIER - HEADER_SIZE = 104 ∧
    ¬((104 : Nat) = 384 ∨ (104 : Nat) = 504) :=
  ⟨rfl, fun h => Except.noConfusion h, rfl, by decide⟩

/-- C1 (amended): the Versioned Layout Resolver checks only the legacy size:
every body length other than 384 — including lengths matching no known
layout — falls back to the v3 decoder; no `UnknownLayoutVersion` error is
raised. -/
theorem c1_amended_fallback (env : DecoderEnv) (c : ByteCursor) (hd : RecordHeader)
    (h : hd.length * LENGTH_MULTIPLIER - 16 ≠ 384) :
    read_instrument_def_msg env c hd = env.read_instrument_def_v3 c hd := by
  simp [read_instrument_def_msg, h]

/-- C1 (witness): the amended fallback theorem applied at the concrete
104-byte body. -/
theorem c1_amended_fallback_witness :
    read_instrument_def_msg markEnv c1Cursor c1Header
      = markEnv.read_instrument_def_v3 c1Cursor c1Header :=
  c1_amended_fallback markEnv c1Cursor c1Header (by decide)

/-- C2 (code bug): for a well-formed header with an unknown kind tag the
claim (and the spec) require the dispatcher to advance the cursor by exactly
`body_length = header.length * WORD_SIZE - HEADER_SIZE`; the generated `else`
branch executes `skip(decoder.io, hd.length - 16)`, omitting the
`LENGTH_MULTIPLIER` used by `read_instrument_def_msg` and by `read_record`'s
unknown-raw-tag path.  At `length = 20` words (an 80-byte record) the cursor
advances 4 bytes to position 20 instead of `body_length = 64` bytes to
position 80, desynchronizing the stream. -/
theorem c2_skip_uses_unscaled_length :
    read_record_dispatch haltEnv c2Cursor c2Header c2Header.rtype
      = .ok (none, c2Cursor.advance 4) ∧
    (c2Cursor.advance 4).pos = 20 ∧
    c2Cursor.pos + (c2Header.length * LENGTH_MULTIPLIER - HEADER_SIZE) = 80 ∧
    (20 : Nat) ≠ 80 :=
  ⟨rfl, rfl, rfl, by decide⟩

/-- C3 (counterexample): the claim says the driver's outcomes distinguish a
skipped unknown-kind record from end-of-stream.  The generated `read_record`
returns the same value `nothing` for an exhausted source and for a skipped
record with unknown raw kind tag `153`, so the two outcomes are equal and a
caller cannot tell them apart. -/
theorem c3_counterexample :
    read_record haltEnv cEmpty = .ok (none, cEmpty) ∧
    read_record haltEnv cUnkRec = .ok (none, cUnkRec.advance 40) ∧
    (read_record haltEnv cEmpty).map Prod.fst = (read_record haltEnv cUnkRec).map Prod.fst :=
  ⟨rfl, rfl, rfl⟩

/-- C3 (amended): per decode attempt the driver's result is a concrete
Record, `nothing`, or a raised error — and `nothing` is returned both at
end-of-stream and for a skipped unknown-kind record, so the two are not
distinguishable by the return value. -/
theorem c3_amended_nothing_for_skip_and_eof (env : DecoderEnv) (c cm cs : ByteCursor)
    (raw len : Nat) :
    (c.remaining = 0 → read_record env c = .ok (none, c)) ∧
    (read_record_header c = .ok (.unknownTuple raw len, cm) →
      cm.skip (len - 2) = .ok cs → read_record env c = .ok (none, cs)) := by
  constructor
  · intro h
    simp [read_record, ByteCursor.eofAtEnd, h]
  · intro h1 h2
    have hne : ¬ c.remaining = 0 := by
      intro h0
      rw [read_record_header, if_pos (by rw [h0]; norm_num [HEADER_SIZE])] at h1
      exact Except.noConfusion h1
    simp [read_record, ByteCursor.eofAtEnd, hne, h1, h2]

/-- C3 (witness): the amended theorem applied to a concrete 48-byte record
with unknown raw kind tag. -/
theorem c3_amended_witness :
    read_record haltEnv c3wCursor = .ok (none, c3wCursor.advance 48) :=
  (c3_amended_nothing_for_skip_and_eof haltEnv c3wCursor (c3wCursor.advance 2)
    (c3wCursor.advance 48) 153 48).2 rfl rfl

/-- C4 (counterexample): the claim says the dispatcher records the cursor
position around each decoder call, forcibly seeks to `start + body_length`
and raises `DecoderOverrun`/`DecoderUnderrun` on mismatch.  With a
market-by-order decoder that consumes zero of the 64 declared body bytes, the
generated dispatcher returns the decoder's result with the cursor still at
position 16 — no seek to 80, no error. -/
theorem c4_counterexample :
    read_record_dispatch c4Env c4Cursor c4Header c4Header.rtype
      = .ok (some (.generic c4Header), c4Cursor) ∧
    c4Cursor.pos = 16 ∧
    c4Cursor.pos + (c4Header.length * LENGTH_MULTIPLIER - HEADER_SIZE) = 80 ∧
    (16 : Nat) ≠ 80 :=
  ⟨rfl, rfl, rfl, by decide⟩

/-- C4 (amended): for every known kind the generated dispatcher simply
returns the per-kind decoder's result unchanged, for arbitrary decoder
behaviour: it performs no cursor bookkeeping, no forced seek to
`start + body_length`, and raises no `DecoderOverrun`/`DecoderUnderrun`
(the generated `read_instrument_def_msg` assigns `start_pos` but never uses
it). -/
theorem c4_amended_no_position_enforcement (env : DecoderEnv) (c : ByteCursor)
    (hd : RecordHeader) :
    read_record_dispatch env c hd .MBO_MSG = liftRec (env.read_mbo_msg c hd) ∧
    read_record_dispatch env c hd .MBP_0_MSG = liftRec (env.read_trade_msg c hd) ∧
    read_record_dispatch env c hd .MBP_1_MSG = liftRec (env.read_mbp1_msg c hd) ∧
    read_record_dispatch env c hd .MBP_10_MSG = liftRec (env.read_mbp10_msg c hd) ∧
    read_record_dispatch env c hd .OHLCV_1S_MSG = liftRec (env.read_ohlcv_msg c hd) ∧
    read_record_dispatch env c hd .OHLCV_1M_MSG = liftRec (env.read_ohlcv_msg c hd) ∧
    read_record_dispatch env c hd .OHLCV_1H_MSG = liftRec (env.read_ohlcv_msg c hd) ∧
    read_record_dispatch env c hd .OHLCV_1D_MSG = liftRec (env.read_ohlcv_msg c hd) ∧
    read_record_dispatch env c hd .STATUS_MSG = liftRec (env.read_status_msg c hd) ∧
    read_record_dispatch env c hd .INSTRUMENT_DEF_MSG
      = liftRec (read_instrument_def_msg env c hd) ∧
    read_record_dispatch env c hd .IMBALANCE_MSG = liftRec (env.read_imbalance_msg c hd) ∧
    read_record_dispatch env c hd .STAT_MSG = liftRec (env.read_stat_msg c hd) ∧
    read_record_dispatch env c hd .ERROR_MSG = liftRec (env.read_error_msg c hd) ∧
    read_record_dispatch env c hd .SYMBOL_MAPPING_MSG
      = liftRec (env.read_symbol_mapping_msg c hd) ∧
    read_record_dispatch env c hd .SYSTEM_MSG = liftRec (env.read_system_msg c hd) ∧
    read_record_dispatch env c hd .CMBP_1_MSG = liftRec (env.read_cmbp1_msg c hd) ∧
    read_record_dispatch env c hd .CBBO_1S_MSG = liftRec (env.read_cbbo1s_msg c hd) ∧
    read_record_dispatch env c hd .CBBO_1M_MSG = liftRec (env.read_cbbo1m_msg c hd) ∧
    read_record_dispatch env c hd .TCBBO_MSG = liftRec (env.read_tcbbo_msg c hd) ∧
    read_record_dispatch env c hd .BBO_1S_MSG = liftRec (env.read_bbo1s_msg c hd) ∧
    read_record_dispatch env c hd .BBO_1M_MSG = liftRec (env.read_bbo1m_msg c hd) :=
  ⟨rfl, rfl, rfl, rfl, rfl, rfl, rfl, rfl, rfl, rfl, rfl, rfl, rfl, rfl, rfl, rfl,
   rfl, rfl, rfl, rfl, rfl⟩

/-- C5: with exactly zero bytes remaining, `read_record` terminates cleanly
(`nothing`, no error); with between 1 and `HEADER_SIZE - 1` bytes remaining,
it fails with `TruncatedInput` rather than terminating cleanly. -/
theorem c5_zero_vs_partial_header (env : DecoderEnv) (c : ByteCursor) :
    (c.remaining = 0 → read_record env c = .ok (none, c)) ∧
    (1 ≤ c.remaining → c.remaining ≤ HEADER_SIZE - 1 →
      read_record env c = .error .TruncatedInput) := by
  constructor
  · intro h
    simp [read_record, ByteCursor.eofAtEnd, h]
  · intro h1 h2
    have h2' : c.remaining ≤ 15 := by simpa [HEADER_SIZE] using h2
    have hne : ¬ c.remaining = 0 := by omega
    have hh : read_record_header c = .error .TruncatedInput := by
      rw [read_record_header, if_pos (by norm_num [HEADER_SIZE]; omega)]
    simp [read_record, ByteCursor.eofAtEnd, hne, hh]

/-- C5 (witness): the theorem applied to an empty source and to a source of
exactly 15 trailing bytes. -/
theorem c5_witness :
    read_record haltEnv cEmpty = .ok (none, cEmpty) ∧
    read_record haltEnv c5Cursor = .error .TruncatedInput :=
  ⟨(c5_zero_vs_partial_header haltEnv cEmpty).1 rfl,
   (c5_zero_vs_partial_header haltEnv c5Cursor).2 (by decide) (by decide)⟩

theorem readFieldsFrom_congr (buf : List Nat) (s : List FieldSchema) :
    ∀ (t : List FieldSchema) (off : Nat),
      s.map (fun f => f.width) = t.map (fun f => f.width) →
      readFieldsFrom buf s off = readFieldsFrom buf t off := by
  induction s with
  | nil =>
    intro t off h
    cases t with
    | nil => rfl
    | cons g gs => simp at h
  | cons f fs ih =>
    intro t off h
    cases t with
    | nil => simp at h
    | cons g gs =>
      simp only [List.map_cons, List.cons.injEq] at h
      simp only [readFieldsFrom]
      rw [h.1, ih gs (off + g.width) h.2]

theorem readFieldsFrom_getD (buf : List Nat) (s : List FieldSchema) :
    ∀ (off i : Nat), i < s.length →
      (readFieldsFrom buf s off).getD i []
        = fieldBytesAt buf (off + physOffset s i) ((s.getD i ⟨0, none⟩).width) := by
  induction s with
  | nil =>
    intro off i h
    simp at h
  | cons f fs ih =>
    intro off i h
    cases i with
    | zero =>
      simp [readFieldsFrom, physOffset]
    | succ j =>
      have hj : j < fs.length := by simpa using h
      have hoff : off + f.width + physOffset fs j = off + physOffset (f :: fs) (j + 1) := by
        simp [physOffset, List.take_succ_cons]
        omega
      simp only [readFieldsFrom, List.getD_cons_succ]
      rw [ih (off + f.width) j hj, hoff]

/-- C6: the legacy (v2) instrument-definition decoder reads every field at
its raw physical offset in struct-declaration order: the decode is invariant
under arbitrary changes to the `encode_order` (logical field ordering)
metadata, and field `i`'s value equals the bytes at its physical offset
(the sum of the widths declared before it). -/
theorem c6_v2_reads_raw_physical_order (schema schemaB : List FieldSchema)
    (buf : List Nat) (i : Nat)
    (hw : schema.map (fun f => f.width) = schemaB.map (fun f => f.width))
    (hi : i < schema.length) :
    read_instrument_def_v2_fields schema buf = read_instrument_def_v2_fields schemaB buf ∧
    (read_instrument_def_v2_fields schema buf).getD i []
      = fieldBytesAt buf (physOffset schema i) ((schema.getD i ⟨0, none⟩).width) := by
  constructor
  · exact readFieldsFrom_congr buf schema schemaB 0 hw
  · have h := readFieldsFrom_getD buf schema 0 i hi
    simpa [read_instrument_def_v2_fields] using h

/-- C6 (witness): the theorem applied to a concrete two-field schema whose
`encode_order` metadata contradicts the physical order. -/
theorem c6_witness :
    read_instrument_def_v2_fields c6Schema c6Buf = read_instrument_def_v2_fields c6SchemaB c6Buf ∧
    (read_instrument_def_v2_fields c6Schema c6Buf).getD 1 []
      = fieldBytesAt c6Buf (physOffset c6Schema 1) ((c6Schema.getD 1 ⟨0, none⟩).width) :=
  c6_v2_reads_raw_physical_order c6Schema c6SchemaB c6Buf 1 (by decide) (by decide)

/-- C7: each of the four OHLC bar granularity kind tags dispatches to the
single shared `read_ohlcv_msg` decoder, and two decodes of the same cursor
under different bar headers differ only in the embedded header — every body
field is decoded identically. -/
theorem c7_ohlcv_shared_decoder (env : DecoderEnv) (c : ByteCursor)
    (hd hd2 : RecordHeader)
    (h : hd.rtype = .OHLCV_1S_MSG ∨ hd.rtype = .OHLCV_1M_MSG ∨
         hd.rtype = .OHLCV_1H_MSG ∨ hd.rtype = .OHLCV_1D_MSG) :
    read_record_dispatch env c hd hd.rtype = liftRec (env.read_ohlcv_msg c hd) ∧
    read_ohlcv_msg_model c hd
      = (read_ohlcv_msg_model c hd2).map (fun rc => (setOhlcvHd hd rc.1, rc.2)) := by
  constructor
  · rcases h with h | h | h | h <;> rw [h] <;> rfl
  · cases hb : read_ohlcv_body c <;>
      simp [read_ohlcv_msg_model, setOhlcvHd, Except.map, hb]

/-- C7 (witness): the theorem applied to a concrete bar body under the
one-minute and one-day granularity headers. -/
theorem c7_witness :
    read_record_dispatch c7Env c7Cursor c7Header c7Header.rtype
      = liftRec (c7Env.read_ohlcv_msg c7Cursor c7Header) ∧
    read_ohlcv_msg_model c7Cursor c7Header
      = (read_ohlcv_msg_model c7Cursor c7Header2).map
          (fun rc => (setOhlcvHd c7Header rc.1, rc.2)) :=
  c7_ohlcv_shared_decoder c7Env c7Cursor c7Header c7Header2 (by decide)

/-- C8: after the stream reaches `Exhausted` or `Failed`, every subsequent
`next()` returns the same terminal outcome, and any number of further calls
leaves the state — in particular the cursor — unchanged, performing no
reads. -/
theorem c8_terminal_states_absorb (env : DecoderEnv) (c : ByteCursor)
    (e : DecodeError) (n : Nat) :
    streamNext env (.Exhausted c) = (.eos, .Exhausted c) ∧
    streamNext env (.Failed c e) = (.failed e, .Failed c e) ∧
    streamIter env n (.Exhausted c) = .Exhausted c ∧
    streamIter env n (.Failed c e) = .Failed c e ∧
    (streamIter env n (.Exhausted c)).cursor = c ∧
    (streamIter env n (.Failed c e)).cursor = c := by
  have hx : ∀ m, streamIter env m (.Exhausted c) = .Exhausted c := by
    intro m
    induction m with
    | zero => rfl
    | succ k ih => simpa [streamIter, streamStep, streamNext] using ih
  have hf : ∀ m, streamIter env m (.Failed c e) = .Failed c e := by
    intro m
    induction m with
    | zero => rfl
    | succ k ih => simpa [streamIter, streamStep, streamNext] using ih
  exact ⟨rfl, rfl, hx n, hf n, by rw [hx n]; rfl, by rw [hf n]; rfl⟩

theorem benchTimedRuns_ok_iff (counts : Nat → Nat) (c0 : Nat) :
    ∀ (fuel s : Nat),
      benchTimedRuns counts c0 s fuel = .ok ()
        ↔ ∀ j, j < fuel → counts (s + j) = c0 := by
  intro fuel
  induction fuel with
  | zero =>
    intro s
    simp [benchTimedRuns]
  | succ k ih =>
    intro s
    simp only [benchTimedRuns]
    by_cases hc : counts s = c0
    · rw [if_pos hc, ih (s + 1)]
      constructor
      · intro hall j hj
        cases j with
        | zero => simpa using hc
        | succ m =>
          have hm := hall m (by omega)
          rw [← hm]
          congr 1
          omega
      · intro hall j hj
        have hm := hall (j + 1) (by omega)
        rw [← hm]
        congr 1
        omega
    · rw [if_neg hc]
      constructor
      · intro hcon
        exact absurd hcon (by simp)
      · intro hall
        exact absurd (by simpa using hall 0 (by omega)) hc

/-- C9: `benchmark_python_read` reads the file once as warmup and `runs`
more times; it raises `AssertionError` exactly when some timed read's record
count differs from the warmup count, and on normal return the `records`
value equals the count of every read, warmup included. -/
theorem c9_benchmark_count_consistency (counts : Nat → Nat) (runs : Nat)
    (_hruns : 1 ≤ runs) :
    ((∃ er, benchmark_python_read counts runs = .error er)
        ↔ ∃ i, 1 ≤ i ∧ i ≤ runs ∧ counts i ≠ counts 0) ∧
    (∀ res, benchmark_python_read counts runs = .ok res →
      res.records = counts 0 ∧ ∀ i, i ≤ runs → counts i = res.records) := by
  have key := benchTimedRuns_ok_iff counts (counts 0) runs 1
  cases hb : benchTimedRuns counts (counts 0) 1 runs with
  | error er =>
    constructor
    · constructor
      · intro _
        by_contra hno
        push_neg at hno
        have hok : benchTimedRuns counts (counts 0) 1 runs = .ok () := by
          rw [key]
          intro j hj
          exact hno (1 + j) (by omega) (by omega)
        rw [hok] at hb
        exact Except.noConfusion hb
      · intro _
        exact ⟨er, by simp [benchmark_python_read, hb]⟩
    · intro res hres
      simp [benchmark_python_read, hb] at hres
  | ok u =>
    cases u
    have hall : ∀ j, j < runs → counts (1 + j) = counts 0 := key.1 hb
    constructor
    · constructor
      · rintro ⟨er, her⟩
        simp [benchmark_python_read, hb] at her
      · rintro ⟨i, h1, h2, hne⟩
        have := hall (i - 1) (by omega)
        rw [show 1 + (i - 1) = i by omega] at this
        exact absurd this hne
    · intro res hres
      have hr : res.records = counts 0 := by
        simp [benchmark_python_read, hb] at hres
        rw [← hres]
      refine ⟨hr, ?_⟩
      intro i hi
      rcases Nat.eq_zero_or_pos i with h0 | h1
      · rw [h0, hr]
      · have := hall (i - 1) (by omega)
        rw [show 1 + (i - 1) = i by omega] at this
        rw [this, hr]

/-- C9 (witness): the theorem applied to a source whose five-record count is
stable across two timed runs. -/
theorem c9_witness :
    ((∃ er, benchmark_python_read (fun _ => 5) 2 = .error er)
        ↔ ∃ i, 1 ≤ i ∧ i ≤ 2 ∧ (fun _ => (5 : Nat)) i ≠ (fun _ => (5 : Nat)) 0) ∧
    (∀ res, benchmark_python_read (fun _ => 5) 2 = .ok res →
      res.records = (fun _ => (5 : Nat)) 0 ∧
      ∀ i, i ≤ 2 → (fun _ => (5 : Nat)) i = res.records) :=
  c9_benchmark_count_consistency (fun _ => 5) 2 (by decide)

set_option maxRecDepth 1000000 in
/-- C10 (counterexample): the claim says `src/decode.jl` is written only
after all handler extraction succeeds.  On a 998-line input that passes both
positional assertions but contains no handler markers, every extraction fails
(returning no code) yet the write still happens. -/
theorem c10_counterexample :
    (refactorMain c10File).isSome = true ∧
    extract_handler ((c10File.drop 381).take 617)
      "if hd.rtype == RType.MBO_MSG" "read_mbo_msg" = [] :=
  ⟨rfl, rfl⟩

/-- C10 (amended): `refactor.py` writes `src/decode.jl` exactly when the two
positional assertions pass (line 382 exists and contains the `read_record`
signature, and line 998 exists and strips to `end`); when they fail the run
aborts before any write, leaving `src/decode.jl` unchanged, and when they
pass the assembled output is written regardless of handler-extraction
failures. -/
theorem c10_amended_write_iff_assertions (lines : List String) :
    ((refactorMain lines).isSome = true ↔
      ∃ l381 l997, pyIndex lines 381 = some l381 ∧
        strContains l381 "function read_record(decoder::DBNDecoder)" = true ∧
        pyIndex lines 997 = some l997 ∧ pyStrip l997 = "end") ∧
    ((refactorMain lines).isSome = true →
      refactorMain lines = some (assembleOutput lines)) := by
  have hfwd : (refactorMain lines).isSome = true →
      ∃ l381 l997, pyIndex lines 381 = some l381 ∧
        strContains l381 "function read_record(decoder::DBNDecoder)" = true ∧
        pyIndex lines 997 = some l997 ∧ pyStrip l997 = "end" := by
    intro hs
    rcases h381 : pyIndex lines 381 with _ | l381
    · simp [refactorMain, h381] at hs
    · simp only [refactorMain, h381] at hs
      by_cases hc : strContains l381 "function read_record(decoder::DBNDecoder)" = true
      · rw [if_pos hc] at hs
        rcases h997 : pyIndex lines 997 with _ | l997
        · simp [h997] at hs
        · simp only [h997] at hs
          by_cases he : pyStrip l997 = "end"
          · exact ⟨l381, l997, rfl, hc, rfl, he⟩
          · rw [if_neg he] at hs
            simp at hs
      · rw [if_neg hc] at hs
        simp at hs
  refine ⟨⟨hfwd, ?_⟩, ?_⟩
  · rintro ⟨l381, l997, h381, hc, h997, he⟩
    simp [refactorMain, h381, hc, h997, he]
  · intro hs
    rcases hfwd hs with ⟨l381, l997, h381, hc, h997, he⟩
    simp [refactorMain, h381, hc, h997, he]

set_option maxRecDepth 1000000 in
/-- C10 (witness): the amended theorem applied to the concrete 998-line
input, showing the assembled output is written. -/
theorem c10_amended_witness :
    refactorMain c10File = some (assembleOutput c10File) :=
  (c10_amended_write_iff_assertions c10File).2 (by rfl)

end DBN
